import Mathlib

/-!
Verification of the erisa rule-batch analysis pipeline (`src/erisaV2.py`).

Strings are modelled as `List Char`. The pure computations of the pipeline
(chunk splitting, per-rule merge of evaluator output, CSV field normalization
and quoting) are transcribed directly from the source; the file-system effects
of `convert_json_to_csv` (stale-file deletion, CSV write) are modelled as an
explicit event trace with boolean failure injections.
-/

/-- Whitespace as stripped by Python's `str.strip()` (the ASCII whitespace
characters; `strip` is only ever applied to text built from these). -/
def isPySpace (c : Char) : Bool :=
  c = ' ' || c = '\t' || c = '\n' || c = '\r' || c = '\x0b' || c = '\x0c'

/-- Python `s.strip()`: remove leading and trailing whitespace. -/
def pyStrip (s : List Char) : List Char :=
  ((s.dropWhile isPySpace).reverse.dropWhile isPySpace).reverse

/-- Python `s.replace(old, new)` for a single-character pattern `old`. -/
def pyReplace (old : Char) (new : List Char) (s : List Char) : List Char :=
  s.flatMap (fun c => if c = old then new else [c])

/-- Modelled from the spec: `split_query_by_length_with_overlap` is imported
from the `utils` module, which is not part of this repository snapshot. Per the
spec's ChunkSplitter contract: a text of length at most `maxLength` yields the
single chunk equal to the whole text; otherwise chunks of length `maxLength`
are emitted with the start offset advancing by `maxLength - overlap` each step
until the remaining text is consumed, the final chunk possibly shorter. The
second disjunct of the guard (`maxLength ≤ overlap`) only ensures totality in
Lean; it is unreachable through `split_query_by_length_with_overlap`, whose
validation rejects such configurations. -/
def splitChunks (maxLength overlap : Nat) (text : List Char) : List (List Char) :=
  if _h : text.length ≤ maxLength ∨ maxLength ≤ overlap then [text]
  else text.take maxLength :: splitChunks maxLength overlap (text.drop (maxLength - overlap))
termination_by text.length
decreasing_by
  simp only [List.length_drop]
  omega

/-- Modelled from the spec: the ChunkSplitter fails with `ConfigurationError`
when the overlap is negative or not strictly less than `maxLength`. -/
inductive SplitError
  | configurationError
deriving DecidableEq

/-- Modelled from the spec: validation wrapper of the splitter. `overlap` must
be at least 0 and strictly less than `maxLength`, otherwise the call fails with
`ConfigurationError` instead of looping or producing chunks. -/
def split_query_by_length_with_overlap (text : List Char) (maxLength : Nat) (overlap : Int) :
    Except SplitError (List (List Char)) :=
  if overlap < 0 ∨ (maxLength : Int) ≤ overlap then
    .error .configurationError
  else
    .ok (splitChunks maxLength overlap.toNat text)

/-- Reconstruction of a document from its chunk list: the first chunk is kept
whole and every later chunk contributes its text after the leading `overlap`
characters (the region duplicated from its predecessor). -/
def reconstruct (overlap : Nat) : List (List Char) → List Char
  | [] => []
  | c :: cs => c ++ ((cs.map (List.drop overlap)).flatten)

/-- One entry of `all_results` in `execute_all_rules`: the per-rule record with
fields `Rule Definition`, `Comply Yes/No` and `Citation`. -/
structure RuleResult where
  rule_definition : List Char
  comply : List Char
  citation : List Char
deriving DecidableEq, Repr

/-- Transcribed from `execute_all_rules` (src/erisaV2.py, lines 87-93): the
merged prompt text for one rule. With a single chunk it is the evaluator
output on that chunk; with several chunks it is the loop accumulation of
`"Document chunk " ++ repr (i+1) ++ ":\n" ++ output ++ "\n\n"` over the
0-based enumeration of the chunks. `ev` stands for the external collaborator
`generate_prompts`. -/
def mergedPrompt (ev : List Char → List Char → List Char)
    (template_bdd : List Char) (queries : List (List Char)) : List Char :=
  if queries.length = 1 then
    ev template_bdd (queries.headD [])
  else
    (queries.enum.map (fun p =>
      "Document chunk ".toList ++ (Nat.repr (p.1 + 1)).toList ++ ":\n".toList
        ++ ev template_bdd p.2 ++ "\n\n".toList)).flatten

/-- Transcribed from `execute_all_rules` (src/erisaV2.py, lines 83-101): one
record per catalog entry, in catalog order, keyed by rule name; the stored
`Rule Definition` is `result_prompt.strip()`, the other two fields start
empty. -/
def execute_all_rules (ev : List Char → List Char → List Char)
    (template_prompts : List (List Char × List Char)) (queries : List (List Char)) :
    List (List Char × RuleResult) :=
  template_prompts.map (fun r =>
    (r.1, { rule_definition := pyStrip (mergedPrompt ev r.2 queries),
            comply := [], citation := [] }))

/-- Closed form of the multi-chunk merge used to state the claims: the chunk
blocks in order, labelled from the given 1-based index. -/
def chunkBlocks (ev : List Char → List Char → List Char) (template_bdd : List Char) :
    Nat → List (List Char) → List Char
  | _, [] => []
  | i, q :: qs =>
      "Document chunk ".toList ++ (Nat.repr i).toList ++ ":\n".toList
        ++ ev template_bdd q ++ "\n\n".toList ++ chunkBlocks ev template_bdd (i + 1) qs

/-- Transcribed from `convert_json_to_csv` (src/erisaV2.py, line 144): the
normalization applied to the `Rule Definition` value before it is handed to
the CSV writer: `.replace('\r', ' ').replace('\n', ' ').replace('"', '""')`. -/
def rule_def_normalized (s : List Char) : List Char :=
  pyReplace '\"' ['\"', '\"'] (pyReplace '\n' [' '] (pyReplace '\r' [' '] s))

/-- One CSV field as emitted by Python's `csv` writer under `QUOTE_ALL` with
the default `doublequote=True`: the value with each embedded quote character
doubled, wrapped in quotes. -/
def csvField (s : List Char) : List Char :=
  '\"' :: s.flatMap (fun c => if c = '\"' then ['\"', '\"'] else [c]) ++ ['\"']

/-- Transcribed from `convert_json_to_csv` (src/erisaV2.py, lines 143-153):
the four quoted cells of one data row, from one entry of the structured
mapping. Only the `Rule Definition` value is pre-normalized; the writer's
quoting applies to all four cells. -/
def csv_record (p : List Char × RuleResult) : List (List Char) :=
  [csvField p.1, csvField (rule_def_normalized p.2.rule_definition),
    csvField p.2.comply, csvField p.2.citation]

/-- Header cells of the CSV file (line 139), quoted like every field. -/
def csvHeaderCells : List (List Char) :=
  [csvField "Rule".toList, csvField "Rule Definition".toList,
    csvField "Comply Yes/No".toList, csvField "Citation".toList]

/-- One physical CSV line: comma-joined cells plus the csv module's default
`\r\n` line terminator. -/
def csvLine (cells : List (List Char)) : List Char :=
  List.intercalate [','] cells ++ ['\r', '\n']

/-- Full content of the CSV file written by `convert_json_to_csv`: the
byte-order mark (the file is opened with encoding `utf-8-sig`), the header
line, then one line per entry of the structured mapping, in its order. -/
def csvContent (data : List (List Char × RuleResult)) : List Char :=
  '\uFEFF' :: csvLine csvHeaderCells
    ++ (data.map (fun p => csvLine (csv_record p))).flatten

/-- File-system events performed by `convert_json_to_csv` at the target CSV
path: a successful deletion of the stale file, or a write of the full new
file content. -/
inductive FsEvent
  | removeCsv
  | writeCsv (content : List Char)
deriving DecidableEq

/-- Outcome of one call to `convert_json_to_csv`: the ordered trace of
file-system events at the target path, whether an error was logged, and
whether an exception escaped to the caller. -/
structure ConvertResult where
  events : List FsEvent
  errorLogged : Bool
  raised : Bool
deriving DecidableEq

/-- Transcribed from `convert_json_to_csv` (src/erisaV2.py, lines 116-157),
with the structured file modelled by its parsed ordered mapping `data` and one
failure injection: `deleteFails` makes the `os.remove` of a pre-existing CSV
raise. Control flow from the source: when the target exists, deletion is
attempted before anything is written; a deletion failure is caught, logged and
the function returns without touching the file; otherwise the file is opened
and the full CSV content is written. The surrounding `try/except Exception`
means no exception ever escapes to the caller. -/
def convert_json_to_csv (csvExists deleteFails : Bool)
    (data : List (List Char × RuleResult)) : ConvertResult :=
  if csvExists then
    if deleteFails then
      { events := [], errorLogged := true, raised := false }
    else
      { events := [.removeCsv, .writeCsv (csvContent data)],
        errorLogged := false, raised := false }
  else
    { events := [.writeCsv (csvContent data)], errorLogged := false, raised := false }

/-- Contents written to the target path during one conversion, in order. -/
def writtenContents (r : ConvertResult) : List (List Char) :=
  r.events.filterMap (fun e =>
    match e with
    | .writeCsv c => some c
    | _ => none)

/-- Outcome of one full `execute_all_rules` run as observed by the caller. -/
structure RunOutcome where
  jsonWritten : Bool
  csvWritten : Bool
  failureReported : Bool
deriving DecidableEq

/-- Transcribed from `execute_all_rules` (src/erisaV2.py, lines 103-114): once
the result set is built the structured JSON file is written, then
`convert_json_to_csv` is called; the run only signals failure to the caller if
that call raises. -/
def execute_all_rules_run (csvExists deleteFails : Bool)
    (ev : List Char → List Char → List Char)
    (template_prompts : List (List Char × List Char)) (queries : List (List Char)) :
    RunOutcome :=
  let results := execute_all_rules ev template_prompts queries
  let c := convert_json_to_csv csvExists deleteFails results
  { jsonWritten := true,
    csvWritten := !(writtenContents c).isEmpty,
    failureReported := c.raised }

theorem splitChunks_flatten_drop (maxLength overlap : Nat) (h : overlap < maxLength) :
    ∀ t : List Char,
      ((splitChunks maxLength overlap t).map (List.drop overlap)).flatten = t.drop overlap := by
  intro t
  generalize hn : t.length = n
  induction n using Nat.strong_induction_on generalizing t with
  | _ n ih =>
    subst hn
    rw [splitChunks]
    by_cases hle : t.length ≤ maxLength ∨ maxLength ≤ overlap
    · simp [hle]
    · simp only [hle, dite_false, List.map_cons, List.flatten_cons]
      push_neg at hle
      obtain ⟨hlen, -⟩ := hle
      have hstep : 1 ≤ maxLength - overlap := by omega
      have hdec : (t.drop (maxLength - overlap)).length < t.length := by
        simp only [List.length_drop]; omega
      rw [ih _ hdec _ rfl, List.drop_drop]
      have hmo : maxLength - overlap + overlap = maxLength := by omega
      rw [hmo]
      have htk : overlap ≤ (t.take maxLength).length := by
        simp only [List.length_take]; omega
      calc (t.take maxLength).drop overlap ++ t.drop maxLength
          = (t.take maxLength ++ t.drop maxLength).drop overlap := by
            rw [List.drop_append_of_le_length htk]
        _ = t.drop overlap := by rw [List.take_append_drop]

/-- C7: every chunk list accepted by the splitter reconstructs the input text
exactly: the first chunk, followed by each later chunk with its leading
`overlap` characters dropped, concatenates back to the original text — no
character lost and none duplicated beyond the intended overlap. -/
theorem split_reconstruct (T : List Char) (maxLength : Nat) (overlap : Int)
    (cs : List (List Char))
    (h : split_query_by_length_with_overlap T maxLength overlap = .ok cs) :
    reconstruct overlap.toNat cs = T := by
  unfold split_query_by_length_with_overlap at h
  by_cases hc : overlap < 0 ∨ (maxLength : Int) ≤ overlap
  · simp [hc] at h
  · simp only [hc, if_false] at h
    push_neg at hc
    obtain ⟨h0, hlt⟩ := hc
    have hlt' : overlap.toNat < maxLength := by omega
    obtain rfl : splitChunks maxLength overlap.toNat T = cs := by
      simpa using h
    rw [splitChunks]
    by_cases hle : T.length ≤ maxLength ∨ maxLength ≤ overlap.toNat
    · simp [hle, reconstruct]
    · simp only [hle, dite_false, reconstruct]
      rw [splitChunks_flatten_drop maxLength overlap.toNat hlt', List.drop_drop]
      have hmo : maxLength - overlap.toNat + overlap.toNat = maxLength := by omega
      rw [hmo, List.take_append_drop]

/-- Witness for C7 at a concrete input: splitting an 8-character text with
budget 3 and overlap 1 gives four chunks, and reconstruction returns the text. -/
theorem split_reconstruct_witness :
    reconstruct (Int.toNat 1)
      ["abc".toList, "cde".toList, "efg".toList, "gh".toList] = "abcdefgh".toList :=
  split_reconstruct "abcdefgh".toList 3 1
    ["abc".toList, "cde".toList, "efg".toList, "gh".toList]
    (by simp [split_query_by_length_with_overlap, splitChunks])

/-- C8: for every text, calling the splitter with a negative overlap or with
`overlap ≥ maxLength` fails with `ConfigurationError` and returns no chunks. -/
theorem split_invalid_overlap_fails (text : List Char) (maxLength : Nat) (overlap : Int)
    (h : overlap < 0 ∨ (maxLength : Int) ≤ overlap) :
    split_query_by_length_with_overlap text maxLength overlap =
      .error .configurationError := by
  unfold split_query_by_length_with_overlap
  simp [h]

/-- Witness for C8 at a concrete input: overlap 5 with budget 3 is rejected. -/
theorem split_invalid_overlap_fails_witness :
    split_query_by_length_with_overlap "abcdef".toList 3 5 =
      .error .configurationError :=
  split_invalid_overlap_fails "abcdef".toList 3 5 (by decide)

theorem enum_blocks_eq_chunkBlocks (ev : List Char → List Char → List Char)
    (template_bdd : List Char) :
    ∀ (n : Nat) (qs : List (List Char)),
      ((List.enumFrom n qs).map (fun p =>
          "Document chunk ".toList ++ (Nat.repr (p.1 + 1)).toList ++ ":\n".toList
            ++ ev template_bdd p.2 ++ "\n\n".toList)).flatten =
        chunkBlocks ev template_bdd (n + 1) qs := by
  intro n qs
  induction qs generalizing n with
  | nil => simp [chunkBlocks]
  | cons q qs ih =>
    simp only [List.enumFrom, List.map_cons, List.flatten_cons, chunkBlocks]
    rw [ih (n + 1)]

theorem pyStrip_decomp (s : List Char) :
    ∃ a b : List Char, s = a ++ pyStrip s ++ b ∧
      (∀ c ∈ a, isPySpace c = true) ∧ (∀ c ∈ b, isPySpace c = true) := by
  refine ⟨s.takeWhile isPySpace,
    ((s.dropWhile isPySpace).reverse.takeWhile isPySpace).reverse, ?_, ?_, ?_⟩
  · have h3 := congrArg List.reverse
      (List.takeWhile_append_dropWhile isPySpace (s.dropWhile isPySpace).reverse)
    simp only [List.reverse_append, List.reverse_reverse] at h3
    have h2 : s.dropWhile isPySpace =
        pyStrip s ++ ((s.dropWhile isPySpace).reverse.takeWhile isPySpace).reverse := by
      simpa [pyStrip] using h3.symm
    conv_lhs => rw [← List.takeWhile_append_dropWhile isPySpace s, h2]
    rw [List.append_assoc]
  · intro c hc
    exact List.mem_takeWhile_imp hc
  · intro c hc
    rw [List.mem_reverse] at hc
    exact List.mem_takeWhile_imp hc

/-- C2 as stated fails on the code: `execute_all_rules` stores
`result_prompt.strip()`, so the trailing blank line of the final chunk block is
removed. With the identity evaluator, the catalog `[("R", "T")]` and the two
chunks `"a"`, `"b"`, the stored definition text lacks the trailing `"\n\n"`
that the claim requires. -/
theorem multi_chunk_merge_counterexample :
    ((execute_all_rules (fun _ c => c) [("R".toList, "T".toList)]
        ["a".toList, "b".toList]).headD ([], ⟨[], [], []⟩)).2.rule_definition ≠
      "Document chunk 1:\na\n\nDocument chunk 2:\nb\n\n".toList := by
  decide

/-- C2 amended: with two or more chunks, each stored definition text equals the
concatenation, in chunk order, of `"Document chunk i:\n" ++ output ++ "\n\n"`
(1-based `i`, exactly one evaluator output per chunk), with leading and
trailing whitespace then stripped by Python's `strip()` — in particular the
trailing blank line after the last chunk block is removed. -/
theorem multi_chunk_merge (ev : List Char → List Char → List Char)
    (template_prompts : List (List Char × List Char)) (queries : List (List Char))
    (h2 : 2 ≤ queries.length) :
    ∀ p ∈ execute_all_rules ev template_prompts queries,
      ∃ template_bdd, (p.1, template_bdd) ∈ template_prompts ∧
        p.2.rule_definition = pyStrip (chunkBlocks ev template_bdd 1 queries) := by
  intro p hp
  simp only [execute_all_rules, List.mem_map] at hp
  obtain ⟨r, hr, rfl⟩ := hp
  refine ⟨r.2, by simpa using hr, congrArg pyStrip ?_⟩
  simp only [mergedPrompt]
  have hne : ¬ queries.length = 1 := by omega
  simp only [hne, if_false]
  have := enum_blocks_eq_chunkBlocks ev r.2 0 queries
  simpa [List.enum] using this

/-- Witness for the amended C2 at the counterexample input. -/
theorem multi_chunk_merge_witness :
    ∃ template_bdd : List Char,
      (("R".toList, template_bdd) : List Char × List Char) ∈ [("R".toList, "T".toList)] ∧
      ("Document chunk 1:\na\n\nDocument chunk 2:\nb".toList : List Char) =
        pyStrip (chunkBlocks (fun _ c => c) template_bdd 1 ["a".toList, "b".toList]) :=
  multi_chunk_merge (fun _ c => c) [("R".toList, "T".toList)] ["a".toList, "b".toList]
    (by decide)
    ("R".toList, ⟨"Document chunk 1:\na\n\nDocument chunk 2:\nb".toList, [], []⟩)
    (by decide)

/-- C6 as stated fails on the code: even with a single chunk the stored text is
`result_prompt.strip()`, not the raw evaluator output. With an evaluator
returning `"X\n"`, the stored definition text is `"X"`. -/
theorem single_chunk_merge_counterexample :
    ((execute_all_rules (fun _ _ => "X\n".toList) [("A".toList, "T".toList)]
        ["a".toList]).headD ([], ⟨[], [], []⟩)).2.rule_definition ≠ "X\n".toList := by
  decide

/-- C6 amended: with exactly one chunk, each stored definition text is the raw
evaluator output for that chunk with leading and trailing whitespace stripped
by Python's `strip()`; nothing else is added or altered — no chunk label — so
the stored text is the evaluator output minus a whitespace-only leading
segment and a whitespace-only trailing segment. -/
theorem single_chunk_merge (ev : List Char → List Char → List Char)
    (template_prompts : List (List Char × List Char)) (q : List Char) :
    ∀ p ∈ execute_all_rules ev template_prompts [q],
      ∃ template_bdd a b, (p.1, template_bdd) ∈ template_prompts ∧
        p.2.rule_definition = pyStrip (ev template_bdd q) ∧
        ev template_bdd q = a ++ p.2.rule_definition ++ b ∧
        (∀ c ∈ a, isPySpace c = true) ∧ (∀ c ∈ b, isPySpace c = true) := by
  intro p hp
  simp only [execute_all_rules, List.mem_map] at hp
  obtain ⟨r, hr, rfl⟩ := hp
  obtain ⟨a, b, hab, ha, hb⟩ := pyStrip_decomp (ev r.2 q)
  exact ⟨r.2, a, b, by simpa using hr, by simp [mergedPrompt],
    by simpa [mergedPrompt] using hab, ha, hb⟩

/-- Witness for the amended C6 at the counterexample input. -/
theorem single_chunk_merge_witness :
    ∃ template_bdd a b : List Char,
      (("A".toList, template_bdd) : List Char × List Char) ∈ [("A".toList, "T".toList)] ∧
      ("X".toList : List Char) = pyStrip "X\n".toList ∧
      ("X\n".toList : List Char) = a ++ "X".toList ++ b ∧
      (∀ c ∈ a, isPySpace c = true) ∧ (∀ c ∈ b, isPySpace c = true) :=
  single_chunk_merge (fun _ _ => "X\n".toList) [("A".toList, "T".toList)] "a".toList
    ("A".toList, ⟨"X".toList, [], []⟩) (by decide)

theorem normalized_body (s : List Char) :
    (rule_def_normalized s).flatMap (fun c => if c = '\"' then ['\"', '\"'] else [c]) =
      s.flatMap (fun c =>
        if c = '\r' ∨ c = '\n' then [' ']
        else if c = '\"' then ['\"', '\"', '\"', '\"'] else [c]) := by
  induction s with
  | nil => rfl
  | cons c s ih =>
    simp only [rule_def_normalized, pyReplace, List.flatMap_cons, List.flatMap_append] at *
    by_cases h1 : c = '\r' <;> by_cases h2 : c = '\n' <;> by_cases h3 : c = '\"' <;>
      simp_all

/-- C1 as stated fails on the code: the manual `.replace('"', '""')` is applied
before the CSV writer, which (with `doublequote=True` under `QUOTE_ALL`)
doubles embedded quotes again, so a literal quote reaches the file as four
quote characters, not two. At the claim's own example input the cell differs
from the claimed one. -/
theorem definition_cell_counterexample :
    csvField (rule_def_normalized ("He said \"ok\"\nDone".toList)) ≠
      "\"He said \"\"ok\"\" Done\"".toList := by
  decide

/-- C1 amended: the definition field is written as a single unconditionally
quoted CSV cell in which each carriage return and line feed is replaced by a
single space, and each literal quote character appears as four quote
characters — doubled once by the pre-normalization and doubled again by the
writer's quoting; the example input `He said "ok"` + newline + `Done` yields
the CSV cell `"He said """"ok"""" Done"`. -/
theorem definition_cell (s : List Char) :
    csvField (rule_def_normalized s) =
      '\"' :: s.flatMap (fun c =>
        if c = '\r' ∨ c = '\n' then [' ']
        else if c = '\"' then ['\"', '\"', '\"', '\"'] else [c]) ++ ['\"'] ∧
    csvField (rule_def_normalized ("He said \"ok\"\nDone".toList)) =
      "\"He said \"\"\"\"ok\"\"\"\" Done\"".toList := by
  refine ⟨?_, by decide⟩
  simp only [csvField]
  rw [normalized_body]

/-- C9: the result set holds exactly one result per rule template, keyed by
rule name, in the catalog's iteration order, and the data rows of the tabular
export are derived one-to-one from the result set in that same order — the
first cell of the i-th row is the quoted name of the i-th catalog rule. -/
theorem result_and_row_order (ev : List Char → List Char → List Char)
    (template_prompts : List (List Char × List Char)) (queries : List (List Char)) :
    (execute_all_rules ev template_prompts queries).map Prod.fst =
      template_prompts.map Prod.fst ∧
    ((execute_all_rules ev template_prompts queries).map
        (fun p => (csv_record p).headD [])) =
      template_prompts.map (fun r => csvField r.1) ∧
    (execute_all_rules ev template_prompts queries).length =
      template_prompts.length := by
  refine ⟨?_, ?_, ?_⟩ <;>
    simp [execute_all_rules, csv_record, List.map_map, Function.comp_def]

theorem csvField_filter (s : List Char) :
    (csvField s).filter (fun c => c != '\"') = s.filter (fun c => c != '\"') := by
  simp only [csvField, List.filter_cons, List.filter_append]
  norm_num
  induction s with
  | nil => rfl
  | cons c s ih =>
    simp only [List.flatMap_cons, List.filter_append, List.filter_cons, ih]
    by_cases h : c = '\"' <;> simp [h]

/-- C10: the CR/LF-to-space replacement and the manual quote doubling are
applied only to the `Rule Definition` cell; the `Rule`, `Comply Yes/No` and
`Citation` values reach their cells altered only by the writer's unconditional
quoting `csvField`, which wraps the value in quotes and doubles embedded
quotes, preserving every other character in place — its output filtered of
quote characters is the value filtered of quote characters. -/
theorem conversion_frame (p : List Char × RuleResult) :
    csv_record p =
      [csvField p.1, csvField (rule_def_normalized p.2.rule_definition),
        csvField p.2.comply, csvField p.2.citation] ∧
    (∀ s : List Char, csvField s = '\"' :: pyReplace '\"' ['\"', '\"'] s ++ ['\"']) ∧
    (∀ s : List Char,
      (csvField s).filter (fun c => c != '\"') = s.filter (fun c => c != '\"')) :=
  ⟨rfl, fun _ => rfl, csvField_filter⟩

/-- C3 as stated fails on the code: with a stale CSV whose deletion fails, the
run writes the structured export, writes no tabular export, and still reports
no failure to the caller — `convert_json_to_csv` catches every exception and
only logs it. -/
theorem pipeline_not_all_or_nothing_counterexample :
    (execute_all_rules_run true true (fun _ c => c)
        [("R".toList, "T".toList)] ["a".toList]).jsonWritten = true ∧
    (execute_all_rules_run true true (fun _ c => c)
        [("R".toList, "T".toList)] ["a".toList]).csvWritten = false ∧
    (execute_all_rules_run true true (fun _ c => c)
        [("R".toList, "T".toList)] ["a".toList]).failureReported = false := by
  refine ⟨rfl, ?_, rfl⟩
  simp [execute_all_rules_run, convert_json_to_csv, writtenContents]

/-- C3 amended: the pipeline is not all-or-nothing past the structured write.
Once the result set is built, the structured export is written and the run
reports success to the caller unconditionally; a failing tabular stage (a
stale-file deletion failure) is caught and only logged, so exactly then the
run ends with the structured export written and no tabular export, and the
tabular export is produced in every other case. -/
theorem pipeline_swallows_csv_failure (csvExists deleteFails : Bool)
    (ev : List Char → List Char → List Char)
    (template_prompts : List (List Char × List Char)) (queries : List (List Char)) :
    (execute_all_rules_run csvExists deleteFails ev template_prompts queries).jsonWritten
        = true ∧
    (execute_all_rules_run csvExists deleteFails ev template_prompts queries).failureReported
        = false ∧
    ((execute_all_rules_run csvExists deleteFails ev template_prompts queries).csvWritten
        = false ↔ csvExists = true ∧ deleteFails = true) := by
  cases csvExists <;> cases deleteFails <;>
    simp [execute_all_rules_run, convert_json_to_csv, writtenContents]

/-- C4: on every tabular derivation with a pre-existing file at the target
path, the stale file is deleted before the new file is written (the event
trace is the deletion followed by the single write), and when that deletion
fails the derivation logs an error and performs no file-system event at all at
the target path — nothing is appended or overwritten in place. -/
theorem stale_csv_delete_then_write (data : List (List Char × RuleResult)) :
    (convert_json_to_csv true false data).events =
      [.removeCsv, .writeCsv (csvContent data)] ∧
    (convert_json_to_csv true true data).events = [] ∧
    (convert_json_to_csv true true data).errorLogged = true ∧
    writtenContents (convert_json_to_csv true true data) = [] := by
  refine ⟨rfl, rfl, rfl, rfl⟩

/-- C5: tabular re-export is idempotent. Deriving the CSV twice from the same
structured data writes byte-for-byte identical contents both times — the first
derivation with no file at the target, the second with the first derivation's
file present — and the second derivation succeeds: nothing is raised and no
error is logged. -/
theorem tabular_reexport_idempotent (data : List (List Char × RuleResult)) :
    writtenContents (convert_json_to_csv false false data) = [csvContent data] ∧
    writtenContents (convert_json_to_csv true false data) = [csvContent data] ∧
    (convert_json_to_csv true false data).raised = false ∧
    (convert_json_to_csv true false data).errorLogged = false := by
  refine ⟨rfl, rfl, rfl, rfl⟩
